import Mathlib

/-!
Shallow embedding of `src/invokeai/frontend/web/src/features/gallery/components/
Boards/BoardsList/BoardsList.tsx` (the `BoardsList` React component) and proofs
about it.

The component derives a filtered board list from an external board collection
and a search string, renders a search-region (search input XOR three system
board buttons), a grid of selectable board cells, and tracks two pieces of
local transient state: `isSearching : boolean` and
`boardToDelete : BoardDTO | undefined`.

JavaScript strings are modelled as Lean `String`; `toLowerCase` is modelled
character-wise by `Char.toLower`; `String.prototype.includes` is modelled as
list-infix on the character data; `undefined` collections become `Option`.
-/

/-- A board record as consumed by the component (`BoardDTO` from
`services/api/types`); only the two fields the component reads are modelled. -/
structure BoardDTO where
  board_id : String
  board_name : String
deriving DecidableEq, Repr

/-- Model of JavaScript `s.toLowerCase()`: lower-case every character. -/
def jsToLower (s : String) : String :=
  ⟨s.data.map Char.toLower⟩

/-- Model of JavaScript `s.includes(pat)`: `pat` occurs contiguously in `s`. -/
def jsIncludes (s pat : String) : Bool :=
  decide (pat.data <:+: s.data)

/-- The predicate of the arrow function on lines 40-42 of the source:
`board.board_name.toLowerCase().includes(searchText.toLowerCase())`. -/
def boardMatches (searchText : String) (board : BoardDTO) : Bool :=
  jsIncludes (jsToLower board.board_name) (jsToLower searchText)

/-- Lines 39-43 of the source: `searchText ? boards?.filter(...) : boards`.
A JavaScript string is truthy exactly when it is non-empty, and `boards` may
be `undefined` before the first load (hence `Option`). -/
def filteredBoards (boards : Option (List BoardDTO)) (searchText : String) :
    Option (List BoardDTO) :=
  if searchText = ("") then boards
  else boards.map fun bs => bs.filter (boardMatches searchText)

/-- The three fixed system-board ids rendered on lines 98-100 of the source. -/
def sysBoardIds : List String :=
  [("images"), ("assets"), ("no_board")]

/-- The mutually exclusive search-region views of lines 64-104: either the
`BoardsSearch` input or the `ButtonGroup` of `SystemBoardButton`s. -/
inductive SearchRegionView where
  | searchInput : SearchRegionView
  | systemBoardButtons : List String → SearchRegionView
deriving DecidableEq, Repr

/-- The ternary on line 65 of the source: `isSearching ? <BoardsSearch/> :
<ButtonGroup>...</ButtonGroup>`. -/
def renderSearchRegion (isSearching : Bool) : SearchRegionView :=
  if isSearching then SearchRegionView.searchInput
  else SearchRegionView.systemBoardButtons sysBoardIds

/-- One rendered board cell of the grid (lines 135-141): the board and the
`isSelected` prop passed to `GalleryBoard`. -/
structure GridCell where
  board : BoardDTO
  isSelected : Bool
deriving DecidableEq, Repr

/-- Lines 133-142 of the source: `filteredBoards && filteredBoards.map(...)`;
an absent list renders no cells, and each cell gets
`isSelected = (selectedBoardId === board.board_id)`. -/
def renderGrid (selectedBoardId : Option String)
    (fb : Option (List BoardDTO)) : List GridCell :=
  match fb with
  | none => []
  | some bs => bs.map fun b =>
      { board := b, isSelected := decide (selectedBoardId = some b.board_id) }

/-- The local transient state of the component: `useState<BoardDTO>()` (line 44)
and `useState(false)` (line 45). -/
structure LocalState where
  boardToDelete : Option BoardDTO
  isSearching : Bool
deriving DecidableEq, Repr

/-- Mount-time defaults of the two `useState` hooks on lines 44-45. -/
def initialLocalState : LocalState :=
  { boardToDelete := none, isSearching := false }

/-- The updater of `handleClickSearchIcon` (lines 46-48):
`setIsSearching((v) => !v)`. -/
def toggleSearchMode (v : Bool) : Bool :=
  !v

/-- Modelled from the spec: `requestDelete(board)` sets
`PendingDeleteBoard = board`. The source passes `setBoardToDelete` to
`GalleryBoard` (line 139), whose code is not part of this excerpt; the spec
says the request stores the board. -/
def requestDelete (b : BoardDTO) (s : LocalState) : LocalState :=
  { s with boardToDelete := some b }

/-- Modelled from the spec: `resolveDeleteDialog()` clears
`PendingDeleteBoard` regardless of the confirm/cancel outcome. The source
passes `setBoardToDelete` to `DeleteBoardModal` (line 149), whose code is not
part of this excerpt. -/
def resolveDeleteDialog (s : LocalState) : LocalState :=
  { s with boardToDelete := none }

/-- The discrete events that update the local state of the component. -/
inductive Event where
  | clickSearchIcon : Event
  | requestDeleteEvt : BoardDTO → Event
  | resolveDeleteDialogEvt : Event
deriving DecidableEq, Repr

/-- One atomic local-state update in response to an event. -/
def step (e : Event) (s : LocalState) : LocalState :=
  match e with
  | Event.clickSearchIcon => { s with isSearching := toggleSearchMode s.isSearching }
  | Event.requestDeleteEvt b => requestDelete b s
  | Event.resolveDeleteDialogEvt => resolveDeleteDialog s

/-- Local states reachable from the mount-time state through event steps. -/
inductive Reachable : LocalState → Prop where
  | init : Reachable initialLocalState
  | next : ∀ (e : Event) (s : LocalState), Reachable s → Reachable (step e s)

/-- The whole observable render output of `BoardsList` (lines 50-152).
`isBatchEnabled` is read on line 38 but appears nowhere in the JSX, so it is
an input that the output does not mention. -/
structure RenderOutput where
  isOpen : Bool
  searchRegion : SearchRegionView
  searchIconChecked : Bool
  grid : List GridCell
  modalBoardToDelete : Option BoardDTO
deriving DecidableEq, Repr

/-- The render function of `BoardsList`: external inputs (`isOpen` prop,
store-held `selectedBoardId` and `searchText`, the query-cache `boards`, the
feature flag) plus the local state determine the output. -/
def renderBoardsList (isOpen : Bool) (selectedBoardId : Option String)
    (searchText : String) (boards : Option (List BoardDTO))
    (isBatchEnabled : Bool) (s : LocalState) : RenderOutput :=
  { isOpen := isOpen
  , searchRegion := renderSearchRegion s.isSearching
  , searchIconChecked := s.isSearching
  , grid := renderGrid selectedBoardId (filteredBoards boards searchText)
  , modalBoardToDelete := s.boardToDelete }

example : filteredBoards (some [⟨("1"), ("Vacation")⟩, ⟨("2"), ("Work")⟩, ⟨("3"), ("vac2")⟩]) ("vac")
    = some [⟨("1"), ("Vacation")⟩, ⟨("3"), ("vac2")⟩] := by decide

theorem jsIncludes_empty_pat (s : String) : jsIncludes s ("") = true := by
  have hd : (("" : String)).data = [] := rfl
  simp only [jsIncludes, jsToLower, hd, List.map_nil, decide_eq_true_eq]
  exact List.nil_infix

theorem boardMatches_empty (b : BoardDTO) : boardMatches ("") b = true := by
  simp only [boardMatches, jsToLower]
  exact jsIncludes_empty_pat _

/-- C1: for every board collection `B` and every query `q`, `filteredBoards`
returns a list that is a sublist of `B` (hence a subset, in the original
relative order), the name of every returned board contains the query
case-insensitively, and every board of `B` left out does not. -/
theorem filteredBoards_filter_spec (B : List BoardDTO) (q : String) :
    ∃ r, filteredBoards (some B) q = some r ∧
      List.Sublist r B ∧
      (∀ b ∈ r, b ∈ B) ∧
      (∀ b ∈ r, boardMatches q b = true) ∧
      (∀ b ∈ B, b ∉ r → boardMatches q b = false) := by
  by_cases hq : q = ("")
  · subst hq
    refine ⟨B, rfl, List.Sublist.refl B, fun b hb => hb, fun b _ => boardMatches_empty b,
      fun b hb hnb => absurd hb hnb⟩
  · refine ⟨B.filter (boardMatches q), by simp [filteredBoards, hq], B.filter_sublist,
      fun b hb => (List.mem_filter.mp hb).1, fun b hb => (List.mem_filter.mp hb).2,
      fun b hb hnb => ?_⟩
    by_contra hm
    exact hnb (List.mem_filter.mpr ⟨hb, by simpa using hm⟩)

/-- C2: filtering with the empty query is the identity on the collection,
whether it is present or absent. -/
theorem filteredBoards_empty_query (boards : Option (List BoardDTO)) :
    filteredBoards boards ("") = boards := rfl

theorem jsToLower_data (s : String) : (jsToLower s).data = s.data.map Char.toLower := rfl

/-- C3: `filteredBoards` depends on the query only through its lower-cased
form: any two case variants of a query (strings with the same lower-casing)
give the same result on every collection. -/
theorem filteredBoards_case_insensitive (boards : Option (List BoardDTO))
    (q1 q2 : String) (h : jsToLower q1 = jsToLower q2) :
    filteredBoards boards q1 = filteredBoards boards q2 := by
  have hlen : q1.data.length = q2.data.length := by
    have hc := congrArg (fun s => s.data.length) h
    simpa [jsToLower_data] using hc
  have hemp : (q1 = ("")) ↔ (q2 = ("")) := by
    constructor <;> intro he
    · have : q2.data.length = 0 := by rw [← hlen, he]; rfl
      have hnil : q2.data = [] := List.length_eq_zero.mp this
      cases q2; cases hnil; rfl
    · have : q1.data.length = 0 := by rw [hlen, he]; rfl
      have hnil : q1.data = [] := List.length_eq_zero.mp this
      cases q1; cases hnil; rfl
  by_cases h1 : q1 = ("")
  · have h2 : q2 = ("") := hemp.mp h1
    rw [h1, h2]
  · have h2 : q2 ≠ ("") := fun he => h1 (hemp.mpr he)
    have hm : boardMatches q1 = boardMatches q2 := by
      funext b
      simp only [boardMatches, h]
    simp only [filteredBoards, h1, h2, if_neg, hm]

theorem filteredBoards_case_insensitive_witness :
    filteredBoards (some [⟨("1"), ("Abc")⟩]) ("ABC")
      = filteredBoards (some [⟨("1"), ("Abc")⟩]) ("abc") :=
  filteredBoards_case_insensitive (some [⟨("1"), ("Abc")⟩]) ("ABC") ("abc") (by decide)

/-- C4: `filteredBoards` is total and deterministic on every combination of
absent, empty or full collection with empty or non-empty query: an absent
collection yields an absent result and the view then renders a grid with zero
cells; an empty collection yields an empty result; an empty query yields the
full collection. -/
theorem filteredBoards_total :
    (∀ q : String, filteredBoards none q = none) ∧
    (∀ (q : String) (sel : Option String), renderGrid sel (filteredBoards none q) = []) ∧
    (∀ q : String, filteredBoards (some []) q = some []) ∧
    (∀ B : List BoardDTO, filteredBoards (some B) ("") = some B) := by
  have h1 : ∀ q : String, filteredBoards none q = none := by
    intro q
    unfold filteredBoards
    split <;> rfl
  refine ⟨h1, fun q sel => by rw [h1 q]; rfl, fun q => ?_, fun B => rfl⟩
  unfold filteredBoards
  split <;> rfl

/-- C5: the search-mode toggle is involutive — two applications restore the
flag (and hence the rendered search-region view) — and one application always
flips the flag. -/
theorem toggleSearchMode_involutive :
    ∀ v : Bool, toggleSearchMode (toggleSearchMode v) = v ∧
      toggleSearchMode v ≠ v ∧
      renderSearchRegion (toggleSearchMode (toggleSearchMode v)) = renderSearchRegion v := by
  decide

/-- The invariant claimed for the search/system-board region: exactly one of
the two views is rendered (never both, never neither), the search input
appears exactly when the flag is true, the system-board buttons exactly when
it is false, and only the search-icon click event changes the flag. -/
def SearchRegionOk (s : LocalState) : Prop :=
  ((renderSearchRegion s.isSearching = SearchRegionView.searchInput ∧
      renderSearchRegion s.isSearching ≠ SearchRegionView.systemBoardButtons sysBoardIds) ∨
    (renderSearchRegion s.isSearching ≠ SearchRegionView.searchInput ∧
      renderSearchRegion s.isSearching = SearchRegionView.systemBoardButtons sysBoardIds)) ∧
  (renderSearchRegion s.isSearching = SearchRegionView.searchInput ↔ s.isSearching = true) ∧
  (renderSearchRegion s.isSearching = SearchRegionView.systemBoardButtons sysBoardIds ↔
    s.isSearching = false) ∧
  (∀ e : Event, (step e s).isSearching ≠ s.isSearching → e = Event.clickSearchIcon)

/-- C6: every reachable local state renders exactly one of the two
search-region views — the search input when the flag is true, the three
system-board buttons when it is false — and only the toggle event changes
which one. -/
theorem search_region_invariant (s : LocalState) (h : Reachable s) :
    SearchRegionOk s := by
  clear h
  unfold SearchRegionOk
  refine ⟨?_, ?_, ?_, ?_⟩
  · cases hb : s.isSearching <;> simp [renderSearchRegion, hb]
  · cases hb : s.isSearching <;> simp [renderSearchRegion, hb]
  · cases hb : s.isSearching <;> simp [renderSearchRegion, hb]
  · intro e he
    cases e with
    | clickSearchIcon => rfl
    | requestDeleteEvt b => exact absurd rfl he
    | resolveDeleteDialogEvt => exact absurd rfl he

theorem search_region_invariant_witness : SearchRegionOk initialLocalState :=
  search_region_invariant initialLocalState Reachable.init

/-- C7: the pending-delete board starts absent at mount, `requestDelete b`
sets it to `b`, and a subsequent `resolveDeleteDialog` sets it back to absent
whatever its prior value was. -/
theorem pending_delete_lifecycle :
    initialLocalState.boardToDelete = none ∧
    (∀ (b : BoardDTO) (s : LocalState), (requestDelete b s).boardToDelete = some b) ∧
    (∀ (b : BoardDTO) (s : LocalState),
      (resolveDeleteDialog (requestDelete b s)).boardToDelete = none) ∧
    (∀ s : LocalState, (resolveDeleteDialog s).boardToDelete = none) :=
  ⟨rfl, fun _ _ => rfl, fun _ _ => rfl, fun _ => rfl⟩

/-- C8: a rendered grid cell is marked selected exactly when the stored
selected board id equals the board id of that cell. -/
theorem grid_cell_selected_iff (sel : Option String) (B : List BoardDTO)
    (q : String) (c : GridCell)
    (hc : c ∈ renderGrid sel (filteredBoards (some B) q)) :
    c.isSelected = true ↔ sel = some c.board.board_id := by
  obtain ⟨r, hr, -, -, -, -⟩ := filteredBoards_filter_spec B q
  rw [hr] at hc
  simp only [renderGrid, List.mem_map] at hc
  obtain ⟨b, -, hb⟩ := hc
  subst hb
  simp

theorem grid_cell_selected_iff_witness :
    (({ board := ⟨("2"), ("Work")⟩, isSelected := true } : GridCell).isSelected = true ↔
      some ("2") =
        some ({ board := ⟨("2"), ("Work")⟩, isSelected := true } : GridCell).board.board_id) :=
  grid_cell_selected_iff (some ("2"))
    [⟨("1"), ("Vacation")⟩, ⟨("2"), ("Work")⟩, ⟨("3"), ("vac2")⟩] ("")
    { board := ⟨("2"), ("Work")⟩, isSelected := true } (by decide)

/-- C9: the observable render output never depends on the `batches` feature
flag: two renders that differ only in the value of the flag are identical. -/
theorem render_ignores_batches_flag :
    ∀ (isOpen : Bool) (sel : Option String) (q : String)
      (boards : Option (List BoardDTO)) (s : LocalState) (flag1 flag2 : Bool),
      renderBoardsList isOpen sel q boards flag1 s =
        renderBoardsList isOpen sel q boards flag2 s :=
  fun _ _ _ _ _ _ _ => rfl

/-- C10: each local operation touches only its own piece of state: the
search toggle leaves the pending-delete board and the rendered grid (hence
the filtered list) unchanged, and the delete request/resolve operations leave
the search flag and the rendered grid unchanged. -/
theorem local_ops_frame :
    ∀ (s : LocalState) (b : BoardDTO),
      (step Event.clickSearchIcon s).boardToDelete = s.boardToDelete ∧
      (step (Event.requestDeleteEvt b) s).isSearching = s.isSearching ∧
      (step Event.resolveDeleteDialogEvt s).isSearching = s.isSearching ∧
      (∀ (isOpen : Bool) (sel : Option String) (q : String)
        (boards : Option (List BoardDTO)) (flag : Bool),
        (renderBoardsList isOpen sel q boards flag (step Event.clickSearchIcon s)).grid =
          (renderBoardsList isOpen sel q boards flag s).grid ∧
        (renderBoardsList isOpen sel q boards flag (step (Event.requestDeleteEvt b) s)).grid =
          (renderBoardsList isOpen sel q boards flag s).grid ∧
        (renderBoardsList isOpen sel q boards flag (step Event.resolveDeleteDialogEvt s)).grid =
          (renderBoardsList isOpen sel q boards flag s).grid) :=
  fun _ _ => ⟨rfl, rfl, rfl, fun _ _ _ _ _ => ⟨rfl, rfl, rfl⟩⟩
